import Mathlib

/-!
Verification of the anime-image-search client library.

The repository is a TypeScript client that submits an image to two reverse
image-search services (saucenao: a JSON API; iqdb: a scraped HTML page) and
normalizes their responses, with an auxiliary imgur upload helper.  This file
is a shallow embedding of that code: the pure response-processing logic is
translated into Lean functions, JavaScript dynamic values are modelled by an
explicit value type, and the network transport is a parameter (the injected
upstream response), with a boolean recording whether the transport was
invoked.
-/

namespace AnimeImageSearch

/-! ## JavaScript string primitives

Models of the JavaScript builtins the source relies on:
`String.prototype.includes`, the regex test `/^https?:/`, string coercion of
`undefined` under `+`, and `parseFloat`. -/

/-- Model of list-prefix testing (used to model `includes` and `^`-anchored
regex tests); the first argument is the pattern. -/
def isPre : List Char → List Char → Bool
  | [], _ => true
  | _ :: _, [] => false
  | a :: as, b :: bs => a == b && isPre as bs

/-- Substring occurrence over character lists: the pattern occurs at some
position of the subject. -/
def hasSub : List Char → List Char → Bool
  | [], sub => sub.isEmpty
  | l@(_ :: t), sub => isPre sub l || hasSub t sub

/-- Model of JavaScript `s.includes(sub)`: substring containment. -/
def strIncludes (s sub : String) : Bool :=
  hasSub s.toList sub.toList

/-- Model of the source's regex test `/^https?:/.test(image)`: the string
starts with `http:` or `https:`. -/
def httpTest (s : String) : Bool :=
  isPre "http:".toList s.toList || isPre "https:".toList s.toList

/-- JavaScript string coercion of a possibly-`undefined` value, as it occurs
in `'http:' + el(...).attr('href')`: an absent attribute concatenates as the
literal text `undefined`. -/
def jsStringOf : Option String → String
  | some s => s
  | none => "undefined"

/-- Decimal digit test on a character (models the lexer inside
JavaScript `parseFloat`). -/
def isDigitChar (c : Char) : Bool :=
  48 ≤ c.toNat && c.toNat ≤ 57

/-- Split a leading run of decimal digits off a character list, returning
their values and the rest. -/
def takeDigits : List Char → List Nat × List Char
  | [] => ([], [])
  | c :: t =>
    if isDigitChar c then
      let p := takeDigits t
      ((c.toNat - 48) :: p.1, p.2)
    else ([], c :: t)

/-- Value of a digit sequence read left to right. -/
def natOfDigits (ds : List Nat) : Nat :=
  ds.foldl (fun a d => 10 * a + d) 0

/-- Model of the JavaScript builtin `parseFloat` on decimal numerals: skips
leading whitespace, reads an optional sign, integer digits, and an optional
fraction; returns `none` where `parseFloat` yields `NaN` (no leading
numeral).  Exponent forms and `Infinity` are outside the model; the source
only ever applies this to upstream similarity percentages. -/
def parseFloatQ (s : String) : Option ℚ :=
  let l := s.toList.dropWhile fun c =>
    c == ' ' || c == '\t' || c == '\n' || c == '\r'
  let signAndRest : ℚ × List Char :=
    match l with
    | '-' :: t => (-1, t)
    | '+' :: t => (1, t)
    | _ => (1, l)
  let ip := takeDigits signAndRest.2
  let fp : List Nat × List Char :=
    match ip.2 with
    | '.' :: t => takeDigits t
    | _ => ([], ip.2)
  if ip.1.isEmpty && fp.1.isEmpty then none
  else
    some (signAndRest.1 *
      ((natOfDigits ip.1 : ℚ) + (natOfDigits fp.1 : ℚ) / (10 ^ fp.1.length)))

/-! ## Saucenao data model

Embeds the TypeScript interfaces `SaucenaoResponse` (header + data),
`SaucenaoOptions` and the constant `saucenaoDefaultOptions`.  Optional
TypeScript fields become `Option`; the `data` intersection type becomes one
structure with every field optional (exactly the shape the source
declares). -/

/-- The `data` field of a saucenao entry: the intersection of the
`PixivResponse`, `ArtStationResponse`, `DevianArtResponse`,
`DanbooruResponse`, `GelbooruResponse` and `AnimePicturesResponse` types from
the source, with every optional field as an `Option`. -/
structure SaucenaoData where
  ext_urls : List String := []
  title : Option String := none
  pixiv_id : Option Int := none
  member_name : Option String := none
  member_id : Option Int := none
  as_project : Option String := none
  author_name : Option String := none
  author_url : Option String := none
  da_id : Option String := none
  danbooru_id : Option Int := none
  gelbooru_id : Option Int := none
  anime_pictures_id : Option Int := none
  source : Option String := none
  material : Option String := none
  creator : Option String := none
  characters : Option String := none
  deriving DecidableEq, Repr

/-- The `header` field of a saucenao entry (source interface
`SaucenaoResponse.header`). -/
structure SaucenaoHeader where
  source : String
  similarity : String
  thumbnail : String
  index_id : Int
  index_name : String
  dupes : Int
  hidden : Int
  deriving DecidableEq, Repr

/-- One entry of the saucenao `results` array (source interface
`SaucenaoResponse`). -/
structure SaucenaoResponse where
  header : SaucenaoHeader
  data : SaucenaoData := {}
  deriving DecidableEq, Repr

/-- The caller-facing `SaucenaoOptions` interface: every field optional
(`none` = the caller did not supply the field). -/
structure SaucenaoOptions where
  output_type : Option Int := none
  dbmask : Option Int := none
  dbmaski : Option Int := none
  db : Option Int := none
  numres : Option Int := none
  hide : Option Int := none
  min_similarity : Option ℚ := none
  deriving DecidableEq, Repr

/-- The source constant `saucenaoDefaultOptions`:
`{ output_type: 2, db: 999, numres: 10, hide: 3, min_similarity: 0 }`. -/
def saucenaoDefaultOptions : SaucenaoOptions :=
  { output_type := some 2
    db := some 999
    numres := some 10
    hide := some 3
    min_similarity := some 0 }

/-- The object spread `{ ...d, ...c }` on `SaucenaoOptions`: per field, the
caller's own property wins when present, otherwise the default's property is
kept (shallow merge). -/
def mergeOptions (d c : SaucenaoOptions) : SaucenaoOptions :=
  { output_type := match c.output_type with
      | some v => some v
      | none => d.output_type
    dbmask := match c.dbmask with
      | some v => some v
      | none => d.dbmask
    dbmaski := match c.dbmaski with
      | some v => some v
      | none => d.dbmaski
    db := match c.db with
      | some v => some v
      | none => d.db
    numres := match c.numres with
      | some v => some v
      | none => d.numres
    hide := match c.hide with
      | some v => some v
      | none => d.hide
    min_similarity := match c.min_similarity with
      | some v => some v
      | none => d.min_similarity }

/-! ## Saucenao response normalization -/

/-- The `switch (options[i].header.index_id)` of the source's `getSource`:
the fixed index-id → label table with default `"Unknown"`. -/
def sourceFor (id : Int) : String :=
  if id = 5 then "Pixiv"
  else if id = 9 then "Danbooru"
  else if id = 25 then "Gelbooru"
  else if id = 28 then "Anime-Pictures"
  else if id = 34 then "DevianArt"
  else if id = 39 then "ArtStation"
  else if id = 41 then "Twitter"
  else "Unknown"

/-- Overwrite the `header.source` field of an entry, leaving every other
field unchanged (the in-place assignment `options[i].header.source = ...`). -/
def withSource (r : SaucenaoResponse) (s : String) : SaucenaoResponse :=
  { r with header := { r.header with source := s } }

/-- The source's `getSource`: walks the array and overwrites each entry's
`header.source` with the label of its `header.index_id`. -/
def getSource (options : List SaucenaoResponse) : List SaucenaoResponse :=
  options.map fun r => withSource r (sourceFor r.header.index_id)

/-- The filter callback
`parseFloat(item.header.similarity) >= opts.min_similarity!`: in JavaScript a
`NaN` comparison is false, so an unparseable similarity is dropped. -/
def simFilterPred (minSim : ℚ) (item : SaucenaoResponse) : Bool :=
  match parseFloatQ item.header.similarity with
  | some v => decide (minSim ≤ v)
  | none => false

/-- The saucenao post-response pipeline:
`results.filter(...)` then `this.getSource(results)`. -/
def saucenaoResults (minSim : ℚ) (results : List SaucenaoResponse) :
    List SaucenaoResponse :=
  getSource (results.filter (simFilterPred minSim))

/-! ## Image input classification and the saucenao operation -/

/-- The runtime shapes the `image` argument can take: the declared union
`string | Buffer | ReadStream` plus the shapes outside it that the final
`else` branch rejects (payload contents are irrelevant to the control flow
and are abstracted by an identifier). -/
inductive ImageInput where
  | stream (id : Nat)
  | str (s : String)
  | buffer (id : Nat)
  | invalid
  deriving DecidableEq, Repr

/-- A file value appended to the outgoing form: an open stream, a stream
opened from a path by `createReadStream`, or a buffer with the synthesized
name `image`. -/
inductive FormFile where
  | streamFile (id : Nat)
  | pathFile (path : String)
  | bufferFile (id : Nat) (name : String)
  deriving DecidableEq, Repr

/-- The image part of the outgoing form data: the branch taken appends
either a `url` field or a `file` attachment, never both. -/
inductive Attachment where
  | url (s : String)
  | file (f : FormFile)
  deriving DecidableEq, Repr

/-- The failures of the search operations (§7 taxonomy): a missing saucenao
key, an input of an unaccepted shape, a 403 from saucenao (key rejected,
carries the status text), any other non-success status, or a transport
failure of the unauthenticated iqdb call. -/
inductive ApiError where
  | missingCredential
  | invalidInputKind
  | invalidCredential (statusText : String)
  | upstreamError (status : Int) (statusText : String)
  | transportFailure
  deriving DecidableEq, Repr

/-- The image-classification ladder shared verbatim by `saucenao` and
`iqdb`: a stream is attached as a file; a string matching `/^https?:/` as a
`url` field; any other string is opened as a path; a buffer is attached with
name `image`; everything else throws the invalid-image-type error. -/
def attachImage : ImageInput → Except ApiError Attachment
  | .stream id => .ok (.file (.streamFile id))
  | .str s =>
    if httpTest s then .ok (.url s)
    else .ok (.file (.pathFile s))
  | .buffer id => .ok (.file (.bufferFile id "image"))
  | .invalid => .error .invalidInputKind

/-- JavaScript falsiness of the configured key
(`!this.options.saucenaoKey`): absent, or the empty string. -/
def keyFalsy : Option String → Bool
  | none => true
  | some s => s.isEmpty

/-- The transport outcome injected into the saucenao operation: either the
parsed `results` array of a success response, or a rejected request with its
status and status text. -/
inductive Upstream where
  | ok (results : List SaucenaoResponse)
  | httpErr (status : Int) (statusText : String)
  deriving DecidableEq, Repr

/-- The `saucenao` method with the transport as a parameter.  Mirrors the
source order: merge options, check the key (throw before any request), build
the form (classifying the image), invoke the transport, map a 403 to the
invalid-key error and other rejections to a status error, then filter by
`min_similarity` and resolve sources.  The boolean records whether the
transport was invoked. -/
def saucenaoRun (key : Option String) (image : ImageInput)
    (options : SaucenaoOptions) (up : Upstream) :
    Except ApiError (List SaucenaoResponse) × Bool :=
  let opts := mergeOptions saucenaoDefaultOptions options
  if keyFalsy key then (.error .missingCredential, false)
  else
    match attachImage image with
    | .error e => (.error e, false)
    | .ok _ =>
      match up with
      | .httpErr status statusText =>
        if status = 403 then (.error (.invalidCredential statusText), true)
        else (.error (.upstreamError status statusText), true)
      | .ok results =>
        (.ok (saucenaoResults (opts.min_similarity.getD 0) results), true)

/-! ## Iqdb scraping

The iqdb page is parsed with fixed selectors inside
`$('div.pages#pages div').each(...)`.  A result element is abstracted by the
texts and attribute those selectors produce: a missing selection yields the
empty text (cheerio `.text()` of an empty selection) and a missing attribute
yields `none` (cheerio `.attr()` returns `undefined`). -/

/-- One `div` of the iqdb results page, as seen through the source's five
selectors. -/
structure IqdbDiv where
  firstRowText : String
  href : Option String
  similarityText : String
  serviceNested : String
  serviceRow : String
  deriving DecidableEq, Repr

/-- One record pushed onto the iqdb output array. -/
structure IqdbRecord where
  url : String
  similarity : String
  service : String
  deriving DecidableEq, Repr

/-- The url computation: keep the attribute when it `includes` `https` or
`http`, else concatenate `'http:'` in front of it (an absent attribute
coerces to the text `undefined`; the guard guarantees the attribute is
present in the true branch). -/
def iqdbUrl (href : Option String) : String :=
  if (match href with
      | some s => strIncludes s "https"
      | none => false)
    || (match href with
      | some s => strIncludes s "http"
      | none => false)
  then jsStringOf href
  else "http:" ++ jsStringOf href

/-- The service computation: the nested element's text when truthy
(non-empty), else the row's own text. -/
def iqdbService (nested row : String) : String :=
  if nested.isEmpty then row else nested

/-- The record built from one result element. -/
def mkIqdbRecord (d : IqdbDiv) : IqdbRecord :=
  { url := iqdbUrl d.href
    similarity := d.similarityText
    service := iqdbService d.serviceNested d.serviceRow }

/-- The `each` loop: skip an element whose first row reads `Your image`
(the query echo), push the record built from every other element, in
document order. -/
def iqdbScrape : List IqdbDiv → List IqdbRecord
  | [] => []
  | d :: rest =>
    if d.firstRowText = "Your image" then iqdbScrape rest
    else mkIqdbRecord d :: iqdbScrape rest

/-- The transport outcome injected into the iqdb operation: the parsed
result elements of the returned page, or a transport failure (the source has
no `.catch`, so a rejection propagates). -/
inductive IqdbUpstream where
  | ok (divs : List IqdbDiv)
  | fail
  deriving DecidableEq, Repr

/-- The `iqdb` method with the transport as a parameter: classify the image
(the same ladder as saucenao), send, scrape. -/
def iqdbRun (image : ImageInput) (up : IqdbUpstream) :
    Except ApiError (List IqdbRecord) :=
  match attachImage image with
  | .error e => .error e
  | .ok _ =>
    match up with
    | .fail => .error .transportFailure
    | .ok divs => .ok (iqdbScrape divs)

/-! ## Imgur upload helper

`uploadToImgur` mixes an axios response object with a raw payload returned
from the `.catch` handler, then destructures dynamically; a faithful model
needs JavaScript values with `undefined` and property access on arbitrary
shapes. -/

mutual
/-- A JavaScript value as the upload helper manipulates them. -/
inductive JVal where
  | jsUndefined : JVal
  | jnull : JVal
  | jbool : Bool → JVal
  | jnum : Int → JVal
  | jstr : String → JVal
  | jobj : JFields → JVal
  deriving DecidableEq

/-- The property list of a JavaScript object. -/
inductive JFields where
  | nil : JFields
  | cons (k : String) (v : JVal) (rest : JFields) : JFields
  deriving DecidableEq
end

/-- Build an object value from a property list. -/
def JVal.objOf : List (String × JVal) → JVal
  | l => .jobj (l.foldr (fun kv r => .cons kv.1 kv.2 r) .nil)

/-- First property with the given key, if any. -/
def JFields.find : JFields → String → Option JVal
  | .nil, _ => none
  | .cons k v rest, key => if k = key then some v else rest.find key

/-- Property access `v.k`: a missing property, or access on a primitive, is
`undefined` (access on `null`/`undefined` only occurs behind the optional
chain or the destructuring guard below). -/
def getField : JVal → String → JVal
  | .jobj fs, k =>
    match fs.find k with
    | some v => v
    | none => .jsUndefined
  | _, _ => .jsUndefined

/-- Is the value `null` or `undefined` (the shapes destructuring rejects)? -/
def isNullish : JVal → Bool
  | .jsUndefined => true
  | .jnull => true
  | _ => false

/-- JavaScript falsiness of a value. -/
def falsy : JVal → Bool
  | .jsUndefined => true
  | .jnull => true
  | .jbool b => !b
  | .jnum n => n = 0
  | .jstr s => s.isEmpty
  | .jobj _ => false

/-- The failures of the upload helper: missing client id (401), the
upstream-reported message (403), or the `TypeError` JavaScript raises when
destructuring from `undefined`/`null`. -/
inductive UploadError where
  | missingCredential
  | upstreamMessage (msg : JVal)
  | typeError
  deriving DecidableEq

/-- The code after the awaited request:
`const { status, data, success } = request?.data;` then either
`{ status, success }` (falsy `success`) or `{ id, link, deletehash, status }`
destructured from `data`.  Destructuring from `undefined`/`null` raises
`TypeError`. -/
def imgurContinue (request : JVal) : Except UploadError JVal :=
  let d := getField request "data"
  if isNullish d then .error .typeError
  else
    let status := getField d "status"
    let success := getField d "success"
    let dat := getField d "data"
    if falsy success then
      .ok (JVal.objOf [("status", status), ("success", success)])
    else if isNullish dat then .error .typeError
    else
      .ok (JVal.objOf
        [("id", getField dat "id"), ("link", getField dat "link"),
          ("deletehash", getField dat "deletehash"), ("status", status)])

/-- The transport outcome injected into the upload helper: a success
response with its body, or a rejection with status and body
(`err.response.status`, `err.response.data`). -/
inductive UploadResponse where
  | ok (body : JVal)
  | httpErr (status : Int) (body : JVal)
  deriving DecidableEq

/-- The `uploadToImgur` method with the transport as a parameter.  On
success, `request` is the axios response (an object whose `data` is the
body); in the `.catch` handler a 401 throws the missing-client-id error, a
403 throws `err.response.data.data.error`, and any other rejection returns
`err.response.data` itself, which then flows into the same destructuring
code in place of the axios response. -/
def uploadToImgur : UploadResponse → Except UploadError JVal
  | .ok body => imgurContinue (JVal.objOf [("data", body)])
  | .httpErr status body =>
    if status = 401 then .error .missingCredential
    else if status = 403 then
      .error (.upstreamMessage (getField (getField body "data") "error"))
    else imgurContinue body

/-! ## Sample inputs

Concrete values used by the witness theorems (spec §8 scenarios). -/

/-- A saucenao header with the given similarity text and index id; the
remaining fields are irrelevant placeholders. -/
def sampleHeader (sim : String) (id : Int) : SaucenaoHeader :=
  { source := "original"
    similarity := sim
    thumbnail := "https://img.saucenao.com/t.jpg"
    index_id := id
    index_name := "sample"
    dupes := 0
    hidden := 0 }

/-- An entry with similarity `95.00` from the Pixiv index (id 5). -/
def sampleHigh : SaucenaoResponse := { header := sampleHeader "95.00" 5 }

/-- An entry with similarity `60.00` from the Danbooru index (id 9). -/
def sampleLow : SaucenaoResponse := { header := sampleHeader "60.00" 9 }

/-- The imgur error payload shape for a non-success status: top-level
`status`/`success` with the error message nested under `data`. -/
def rawErrorPayload : JVal :=
  JVal.objOf
    [("status", .jnum 500), ("success", .jbool false),
      ("data", JVal.objOf [("error", .jstr "Internal error")])]

/-- An iqdb result element every sub-element of which is missing: the link
attribute is absent and all selector texts are empty. -/
def emptyDiv : IqdbDiv :=
  { firstRowText := ""
    href := none
    similarityText := ""
    serviceNested := ""
    serviceRow := "" }

end AnimeImageSearch

deriving instance DecidableEq for Except

namespace AnimeImageSearch

/-! ## Helper lemmas -/

/-- `getSource` keeps the length of the list. -/
theorem getSource_length (l : List SaucenaoResponse) :
    (getSource l).length = l.length := by
  simp [getSource]

/-- The `i`-th output of `getSource` is the `i`-th input with its
`header.source` overwritten by the label of its index id. -/
theorem getSource_get (l : List SaucenaoResponse) (i : Nat)
    (h : i < l.length) (h2 : i < (getSource l).length) :
    (getSource l).get ⟨i, h2⟩
      = withSource (l.get ⟨i, h⟩) (sourceFor (l.get ⟨i, h⟩).header.index_id) := by
  simp [getSource]

/-- Membership in a `getSource` output. -/
theorem getSource_mem (l : List SaucenaoResponse) (r : SaucenaoResponse) :
    r ∈ getSource l ↔
      ∃ a ∈ l, r = withSource a (sourceFor a.header.index_id) := by
  simp [getSource, eq_comm]

/-- The filter callback passes exactly when the similarity parses and the
parsed value reaches the threshold. -/
theorem simFilterPred_iff (minSim : ℚ) (r : SaucenaoResponse) :
    simFilterPred minSim r = true ↔
      ∃ v, parseFloatQ r.header.similarity = some v ∧ minSim ≤ v := by
  unfold simFilterPred
  rcases hp : parseFloatQ r.header.similarity with _ | v
  · simp
  · simp [decide_eq_true_eq]

/-- `iqdbScrape` is the map of the record builder over the elements whose
first row is not the query echo. -/
theorem iqdbScrape_eq (divs : List IqdbDiv) :
    iqdbScrape divs
      = (divs.filter fun d => !(d.firstRowText == "Your image")).map
          mkIqdbRecord := by
  induction divs with
  | nil => rfl
  | cons d rest ih =>
    by_cases h : d.firstRowText = "Your image"
    · simp [iqdbScrape, List.filter, h, ih]
    · have hb : (d.firstRowText == "Your image") = false := by
        simp [h]
      simp [iqdbScrape, List.filter, h, hb, ih]

/-- A list starting with the characters of `https` also starts with those of
`http`. -/
theorem isPre_https_http (l : List Char)
    (h : isPre "https".toList l = true) : isPre "http".toList l = true := by
  rcases l with _ | ⟨a, _ | ⟨b, _ | ⟨c, _ | ⟨d, t⟩⟩⟩⟩ <;>
    simp_all [isPre]
  tauto

/-- A character list containing `https` contains `http`. -/
theorem hasSub_https_http (l : List Char)
    (h : hasSub l "https".toList = true) : hasSub l "http".toList = true := by
  induction l with
  | nil => simp_all [hasSub]
  | cons c t ih =>
    rw [hasSub] at h ⊢
    simp only [Bool.or_eq_true] at h ⊢
    rcases h with h1 | h2
    · exact Or.inl (isPre_https_http _ h1)
    · exact Or.inr (ih h2)

/-! ## Claim theorems -/

/-- C1: every saucenao search returns exactly the upstream entries whose
similarity, parsed as a floating-point percentage, reaches the effective
`min_similarity`; in particular, with `min_similarity = 0` (the default)
every upstream entry is retained — the latter under the data-model invariant
that every similarity is a parseable non-negative percentage. -/
theorem saucenao_similarity_filter (minSim : ℚ) (l : List SaucenaoResponse)
    (hp : ∀ r ∈ l, ∃ v, parseFloatQ r.header.similarity = some v ∧ 0 ≤ v) :
    (∀ r : SaucenaoResponse, simFilterPred minSim r = true ↔
        ∃ v, parseFloatQ r.header.similarity = some v ∧ minSim ≤ v)
    ∧ saucenaoResults minSim l = getSource (l.filter (simFilterPred minSim))
    ∧ (minSim = 0 → saucenaoResults minSim l = getSource l) := by
  refine ⟨fun r => simFilterPred_iff minSim r, rfl, ?_⟩
  intro h0
  subst h0
  unfold saucenaoResults
  congr 1
  refine List.filter_eq_self.mpr fun a ha => ?_
  rcases hp a ha with ⟨v, hv, hvge⟩
  exact (simFilterPred_iff 0 a).mpr ⟨v, hv, hvge⟩

/-- C1 witness: with the default threshold 0 the two sample entries
(`95.00` and `60.00`) are both retained. -/
theorem saucenao_similarity_filter_witness :
    saucenaoResults 0 [sampleHigh, sampleLow] = getSource [sampleHigh, sampleLow] := by
  refine (saucenao_similarity_filter 0 [sampleHigh, sampleLow] ?_).2.2 rfl
  intro r hr
  simp only [List.mem_cons, List.not_mem_nil, or_false] at hr
  rcases hr with rfl | rfl
  · refine ⟨95, ?_, by norm_num⟩
    simp +decide [sampleHigh, sampleHeader, parseFloatQ, takeDigits,
      natOfDigits, isDigitChar, List.dropWhile]
  · refine ⟨60, ?_, by norm_num⟩
    simp +decide [sampleLow, sampleHeader, parseFloatQ, takeDigits,
      natOfDigits, isDigitChar, List.dropWhile]

/-- C2: the resolved source label of every entry produced by `getSource` is
the table value of its numeric index id — 5 Pixiv, 9 Danbooru, 25 Gelbooru,
28 Anime-Pictures, 34 DevianArt, 39 ArtStation, 41 Twitter — and every id
outside the table resolves to `Unknown`. -/
theorem getSource_resolves_table (l : List SaucenaoResponse)
    (r : SaucenaoResponse) (hr : r ∈ getSource l) :
    r.header.source = sourceFor r.header.index_id
    ∧ sourceFor 5 = "Pixiv" ∧ sourceFor 9 = "Danbooru"
    ∧ sourceFor 25 = "Gelbooru" ∧ sourceFor 28 = "Anime-Pictures"
    ∧ sourceFor 34 = "DevianArt" ∧ sourceFor 39 = "ArtStation"
    ∧ sourceFor 41 = "Twitter"
    ∧ (∀ id : Int, id ≠ 5 → id ≠ 9 → id ≠ 25 → id ≠ 28 → id ≠ 34 →
        id ≠ 39 → id ≠ 41 → sourceFor id = "Unknown") := by
  refine ⟨?_, rfl, rfl, rfl, rfl, rfl, rfl, rfl, ?_⟩
  · rcases (getSource_mem l r).mp hr with ⟨a, _, rfl⟩
    rfl
  · intro id h5 h9 h25 h28 h34 h39 h41
    simp [sourceFor, h5, h9, h25, h28, h34, h39, h41]

/-- C2 witness: the sample Pixiv entry (index id 5) resolves to `Pixiv`. -/
theorem getSource_resolves_table_witness :
    withSource sampleHigh "Pixiv" ∈ getSource [sampleHigh]
    ∧ (withSource sampleHigh "Pixiv").header.source
        = sourceFor (withSource sampleHigh "Pixiv").header.index_id := by
  have hm : withSource sampleHigh "Pixiv" ∈ getSource [sampleHigh] := by decide
  exact ⟨hm, (getSource_resolves_table [sampleHigh] _ hm).1⟩

/-- C3: the effective saucenao option set is the library defaults
(output_type 2, db 999, numres 10, hide 3, min_similarity 0) with each
caller-supplied field replacing its default, field by field; every defaulted
field is present in the merge, and the undefaulted masks pass through as the
caller left them. -/
theorem saucenao_options_shallow_merge (c : SaucenaoOptions) :
    (mergeOptions saucenaoDefaultOptions c).output_type
        = some (c.output_type.getD 2)
    ∧ (mergeOptions saucenaoDefaultOptions c).db = some (c.db.getD 999)
    ∧ (mergeOptions saucenaoDefaultOptions c).numres = some (c.numres.getD 10)
    ∧ (mergeOptions saucenaoDefaultOptions c).hide = some (c.hide.getD 3)
    ∧ (mergeOptions saucenaoDefaultOptions c).min_similarity
        = some (c.min_similarity.getD 0)
    ∧ (mergeOptions saucenaoDefaultOptions c).dbmask = c.dbmask
    ∧ (mergeOptions saucenaoDefaultOptions c).dbmaski = c.dbmaski := by
  obtain ⟨o, m, mi, db, n, h, ms⟩ := c
  refine ⟨?_, ?_, ?_, ?_, ?_, ?_, ?_⟩
  · cases o <;> rfl
  · cases db <;> rfl
  · cases n <;> rfl
  · cases h <;> rfl
  · cases ms <;> rfl
  · cases m <;> rfl
  · cases mi <;> rfl

/-- C4: with no saucenao key configured the search fails with the
missing-credential error and the transport is never invoked, whatever the
image, options and would-be upstream response. -/
theorem saucenao_missing_key_no_network (image : ImageInput)
    (options : SaucenaoOptions) (up : Upstream) :
    saucenaoRun none image options up
      = (Except.error ApiError.missingCredential, false) := rfl

/-- C5 counterexample: for a 500 with the usual imgur error payload the
caller does not receive the payload verbatim — the payload is fed into the
response-destructuring code, so the caller gets `{status, success}` read
from the payload's `data` field, both `undefined`. -/
theorem upload_error_payload_not_verbatim :
    uploadToImgur (.httpErr 500 rawErrorPayload)
      = Except.ok (JVal.objOf [("status", JVal.jsUndefined), ("success", JVal.jsUndefined)])
    ∧ uploadToImgur (.httpErr 500 rawErrorPayload) ≠ Except.ok rawErrorPayload := by
  constructor <;> decide

/-- C5 amended: a non-success status other than 401 and 403 does not throw;
the raw payload is substituted for the transport response, so (whenever the
payload's `data` property is an object with falsy `success`, the usual imgur
error shape) the caller receives `{status, success}` destructured from that
`data` property — not the payload verbatim.  Only 401 (missing client id)
and 403 (upstream-reported message) are thrown. -/
theorem uploadToImgur_error_policy (s : Int) (body : JVal) (fs : JFields)
    (h1 : s ≠ 401) (h2 : s ≠ 403)
    (hd : getField body "data" = JVal.jobj fs)
    (hs : falsy (getField (JVal.jobj fs) "success") = true) :
    uploadToImgur (.httpErr s body)
      = Except.ok (JVal.objOf
          [("status", getField (JVal.jobj fs) "status"),
            ("success", getField (JVal.jobj fs) "success")])
    ∧ (∀ b, uploadToImgur (.httpErr 401 b)
        = Except.error UploadError.missingCredential)
    ∧ (∀ b, uploadToImgur (.httpErr 403 b)
        = Except.error
            (UploadError.upstreamMessage (getField (getField b "data") "error"))) := by
  refine ⟨?_, fun b => by simp [uploadToImgur], fun b => by simp [uploadToImgur]⟩
  simp only [uploadToImgur]
  rw [if_neg h1, if_neg h2]
  unfold imgurContinue
  rw [hd]
  simp [isNullish, hs, JVal.objOf]

/-- C5 amended witness: the 500 payload instantiation. -/
theorem uploadToImgur_error_policy_witness :
    uploadToImgur (.httpErr 500 rawErrorPayload)
      = Except.ok (JVal.objOf [("status", JVal.jsUndefined), ("success", JVal.jsUndefined)]) := by
  have h := uploadToImgur_error_policy 500 rawErrorPayload
    (JFields.cons "error" (.jstr "Internal error") .nil)
    (by decide) (by decide) (by decide) (by decide)
  simpa using h.1

/-- C6: the classification of the image argument yields exactly one
attachment — a `url` field precisely for a string matching `^https?:`, a
file attachment for a stream, a buffer or any other string — and any other
input shape fails with the invalid-input-kind error; on that failure neither
search operation invokes its transport. -/
theorem image_attach_exactly_one (img : ImageInput) :
    (attachImage img = Except.error ApiError.invalidInputKind ↔
        img = ImageInput.invalid)
    ∧ (∀ s, attachImage img = Except.ok (Attachment.url s) ↔
        (img = ImageInput.str s ∧ httpTest s = true))
    ∧ ((∃ f, attachImage img = Except.ok (Attachment.file f)) ↔
        ((∃ n, img = ImageInput.stream n) ∨ (∃ n, img = ImageInput.buffer n)
          ∨ (∃ s, img = ImageInput.str s ∧ httpTest s = false)))
    ∧ (∀ (k : Option String) (c : SaucenaoOptions) (u : Upstream),
        keyFalsy k = false → img = ImageInput.invalid →
        saucenaoRun k img c u = (Except.error ApiError.invalidInputKind, false))
    ∧ (∀ u : IqdbUpstream, img = ImageInput.invalid →
        iqdbRun img u = Except.error ApiError.invalidInputKind) := by
  refine ⟨?_, ?_, ?_, ?_, ?_⟩
  · cases img <;> simp [attachImage]
    rename_i s
    by_cases h : httpTest s <;> simp [h]
  · intro s
    cases img <;> simp [attachImage]
    rename_i s2
    by_cases h : httpTest s2
    · simp [h]
      rintro rfl
      exact h
    · simp [h]
      rintro rfl
      simpa using h
  · cases img <;> simp [attachImage]
    rename_i s
    by_cases h : httpTest s <;> simp [h]
  · intro k c u hk himg
    subst himg
    simp [saucenaoRun, hk, attachImage]
  · intro u himg
    subst himg
    simp [iqdbRun, attachImage]

/-- C6 witness: with a non-falsy key and an invalid image, the saucenao
operation fails with the invalid-input-kind error without touching the
transport. -/
theorem image_attach_exactly_one_witness :
    keyFalsy (some "key") = false
    ∧ saucenaoRun (some "key") ImageInput.invalid {} (Upstream.ok [])
        = (Except.error ApiError.invalidInputKind, false) := by
  refine ⟨by decide, ?_⟩
  exact (image_attach_exactly_one ImageInput.invalid).2.2.2.1
    (some "key") {} (.ok []) (by decide) rfl

/-- C7: a result element whose first-row text is the literal `Your image`
is skipped: the output is exactly the record builder mapped over the other
elements, in order. -/
theorem iqdb_skips_your_image (divs : List IqdbDiv) :
    iqdbScrape divs
      = (divs.filter fun d => !(d.firstRowText == "Your image")).map
          mkIqdbRecord :=
  iqdbScrape_eq divs

/-- C8: an iqdb match link not containing the substring `http` is emitted
with `http:` prepended; a link already containing `http` is emitted
unchanged. -/
theorem iqdb_link_scheme (s : String) :
    (strIncludes s "http" = true → iqdbUrl (some s) = s)
    ∧ (strIncludes s "http" = false → iqdbUrl (some s) = "http:" ++ s) := by
  constructor
  · intro h
    simp [iqdbUrl, h, jsStringOf]
  · intro h
    have h2 : strIncludes s "https" = false := by
      rcases hc : strIncludes s "https" with _ | _
      · rfl
      · exact absurd (hasSub_https_http s.toList hc) (by simp [strIncludes] at h ⊢; exact h)
    simp [iqdbUrl, h, h2, jsStringOf]

/-- C8 witness: a scheme-relative link gets `http:` prepended; an absolute
link passes through unchanged. -/
theorem iqdb_link_scheme_witness :
    strIncludes "//danbooru.donmai.us/img.jpg" "http" = false
    ∧ iqdbUrl (some "//danbooru.donmai.us/img.jpg")
        = "http://danbooru.donmai.us/img.jpg" := by
  refine ⟨by decide, ?_⟩
  have h := (iqdb_link_scheme "//danbooru.donmai.us/img.jpg").2 (by decide)
  rw [h]
  decide

/-- C9 counterexample: an element with no link attribute and empty selector
texts is emitted with url `"http:undefined"` — not the empty string the
claim requires for a missing sub-element. -/
theorem iqdb_missing_link_not_empty :
    iqdbScrape [emptyDiv]
      = [{ url := "http:undefined", similarity := "", service := "" }]
    ∧ ("http:undefined" : String) ≠ "" := by
  constructor <;> decide

/-- C9 amended: malformed or missing sub-elements never abort the call — the
element's record is still emitted and the rest of the page is still
returned; a missing similarity cell or service cell degrades to the empty
string, but a missing link degrades to the string `http:undefined` (the
scheme prefix concatenated onto the JavaScript coercion of `undefined`), not
to the empty string. -/
theorem iqdb_parse_gap_degrades (divs : List IqdbDiv) (d : IqdbDiv)
    (hmem : d ∈ divs) (hne : d.firstRowText ≠ "Your image") :
    mkIqdbRecord d ∈ iqdbScrape divs
    ∧ (d.similarityText = "" → (mkIqdbRecord d).similarity = "")
    ∧ (d.serviceNested = "" → d.serviceRow = "" → (mkIqdbRecord d).service = "")
    ∧ (d.href = none → (mkIqdbRecord d).url = "http:undefined")
    ∧ (∀ dl : List IqdbDiv,
        iqdbRun (ImageInput.str "https://example.com/a.png") (IqdbUpstream.ok dl)
          = Except.ok (iqdbScrape dl)) := by
  refine ⟨?_, ?_, ?_, ?_, ?_⟩
  · rw [iqdbScrape_eq]
    exact List.mem_map_of_mem _ (List.mem_filter.mpr ⟨hmem, by simp [hne]⟩)
  · intro h
    simp [mkIqdbRecord, h]
  · intro h1 h2
    simp [mkIqdbRecord, iqdbService, h1, h2]
  · intro h
    simp [mkIqdbRecord, iqdbUrl, h, jsStringOf]
  · intro dl
    have ha : attachImage (ImageInput.str "https://example.com/a.png")
        = Except.ok (Attachment.url "https://example.com/a.png") := by decide
    simp [iqdbRun, ha]

/-- C9 amended witness: the all-missing element instantiation. -/
theorem iqdb_parse_gap_degrades_witness :
    mkIqdbRecord emptyDiv ∈ iqdbScrape [emptyDiv]
    ∧ (mkIqdbRecord emptyDiv).url = "http:undefined" := by
  have h := iqdb_parse_gap_degrades [emptyDiv] emptyDiv (by decide) (by decide)
  exact ⟨h.1, h.2.2.2.1 rfl⟩

/-- C10: source resolution touches only `header.source`: the output of
`getSource` has the same length and order, each output entry is the
corresponding input entry with only `header.source` replaced, and the
replacement is computed from the entry's index id alone — the upstream
source value is always discarded. -/
theorem getSource_frame_effect (l : List SaucenaoResponse) (i : Nat)
    (h : i < l.length) (h2 : i < (getSource l).length) :
    (getSource l).length = l.length
    ∧ (getSource l).get ⟨i, h2⟩
        = withSource (l.get ⟨i, h⟩) (sourceFor (l.get ⟨i, h⟩).header.index_id)
    ∧ ((getSource l).get ⟨i, h2⟩).header.similarity
        = (l.get ⟨i, h⟩).header.similarity
    ∧ ((getSource l).get ⟨i, h2⟩).data = (l.get ⟨i, h⟩).data
    ∧ ((getSource l).get ⟨i, h2⟩).header.source
        = sourceFor ((l.get ⟨i, h⟩).header.index_id) := by
  have hg := getSource_get l i h h2
  exact ⟨getSource_length l, hg, by rw [hg]; rfl, by rw [hg]; rfl, by rw [hg]; rfl⟩

/-- C10 witness: the singleton-list instantiation at index 0. -/
theorem getSource_frame_effect_witness :
    (getSource [sampleHigh]).length = [sampleHigh].length
    ∧ (getSource [sampleHigh]).get ⟨0, by decide⟩
        = withSource sampleHigh (sourceFor sampleHigh.header.index_id) := by
  have h := getSource_frame_effect [sampleHigh] 0 (by decide) (by decide)
  exact ⟨h.1, h.2.1⟩

end AnimeImageSearch
